import Mathlib

/-!
Shallow embedding of `pyhdb/cursor.py` (PyHDB statement-execution and
result-pagination engine).

The cursor module talks to the server through `connection.send_request`;
everything behind that call (binary encoding, the transport, the column
codecs, the numeric constants of `part_kinds` / `function_codes`) lives in
other modules of the package.  Those collaborators are modelled at their
interface boundary: a response is a function code plus a list of typed
parts, a result-set part carries its already-decoded row tuples, and each
operation that talks to the network takes the server's response as an
explicit argument and returns the list of requests it issued.

Python exceptions are modelled with an explicit error type; a raise is an
`Except.error` result.  Mutations that a raised exception would leave behind
mid-handler are not tracked on the error path (the call aborts); all claims
below concern either successful handlers or the pre-request error paths.
-/

set_option autoImplicit false

deriving instance DecidableEq for Except

namespace PyHDB

/-- Application-level scalar values (opaque to the cursor logic). -/
inductive PyVal where
  | int (n : Int)
  | str (s : String)
  | null
  deriving DecidableEq

/-- One decoded result row, as stored in the cursor's buffer. -/
abbrev Row := List PyVal

/-- One application-supplied parameter row: either a Python list/tuple of
values, or any other (scalar) object, which `PreparedStatement.next`
rejects with a usage error. -/
inductive PyParam where
  | seq (vals : List PyVal)
  | scalar (v : PyVal)
  deriving DecidableEq

/-- The Python exceptions that `cursor.py` raises or propagates.
`stopIteration` is the iterator-end signal; `outOfFuel` is a modelling
artifact used only by the fuelled `fetchall` loop. -/
inductive PyError where
  | programmingError (msg : String)
  | interfaceError (msg : String)
  | databaseError (msg : String)
  | assertionError
  | typeError (msg : String)
  | indexError
  | attributeError
  | valueError
  | keyError
  | stopIteration
  | outOfFuel
  deriving DecidableEq

/-- The fields of a raw column record that `_handle_result_metadata`
actually reads: `column[0]` (option bits), `column[1]` (type code),
`column[2]`, `column[3]` (sizes) and `column[8]` (name). -/
structure ColumnRecord where
  f0 : Int
  f1 : Int
  f2 : Int
  f3 : Int
  f8 : String
  deriving DecidableEq

/-- The DBAPI description 7-tuple built by `_handle_result_metadata`:
`(column[8], column[1], None, column[3], column[2], None, column[0] & 0b10)`,
modelled with a named field per tuple position. -/
structure ColumnDescriptor where
  name : String
  type_code : Int
  display_size : Option Int
  internal_size : Int
  precision : Int
  scale : Option Int
  null_ok : Int
  deriving DecidableEq

/-- The fields of a parameter-metadata record read by `cursor.py`:
`p.id`, `p.datatype`, `p.length` (the remaining record fields are unused). -/
structure ParamMetadata where
  id : Nat
  datatype : Int
  length : Int
  deriving DecidableEq

/-- Embeds `PreparedStatement.ParamTuple`: `(id, type_code, length, value)`. -/
structure ParamTuple where
  id : Nat
  type_code : Int
  length : Int
  value : PyVal
  deriving DecidableEq

/-- A typed response part (`part.kind` dispatch is modelled by the
constructor).  A `resultSet` part carries its decoded row tuples and the
final-chunk bit (`part.attribute & 1`); the payload decoding itself is done
by the external codec collaborator. -/
inductive RespPart where
  | statementId (sid : Nat)
  | parameterMetadata (md : List ParamMetadata)
  | resultSetMetadata (columns : List ColumnRecord)
  | resultSetId (rid : Nat)
  | resultSet (rows : List Row) (lastChunk : Bool)
  | rowsAffected (values : List Int)
  | statementContext
  | transactionFlags
  | other (kind : Nat)
  deriving DecidableEq

/-- A response's function code: `SELECT`, one of the data-modification
codes (`function_codes.DML`), `DDL`, or anything else. -/
inductive FunctionCode where
  | select
  | dml (code : Nat)
  | ddl
  | other (code : Nat)
  deriving DecidableEq

/-- One network request issued through `connection.send_request`. -/
inductive Request where
  | prepare (stmt : String)
  | executeDirect (operation : String)
  | executePrepared (sid : Nat) (rows : List (List ParamTuple))
  | fetchNext (rid : Nat) (fetchSize : Int)
  deriving DecidableEq

/-- The connection as seen by the cursor: only its `closed` flag is read. -/
structure Connection where
  closed : Bool
  deriving DecidableEq

/-- Embeds `PreparedStatement` state.  The stored `_connection` reference is never
read by `cursor.py` and is omitted.  `_multi_row_parameters`, initially
`None` in Python, is modelled as the list of rows not yet pulled (empty when
unset).  The pushed-row stack grows at the front (Python appends and pops at
the back of a list: the same LIFO discipline). -/
structure PreparedStatement where
  statement_id : Nat
  params_metadata : List ParamMetadata
  result_metadata_part : Option (List ColumnRecord)
  pushed_row_params : List (List ParamTuple)
  multi_row_parameters : List PyParam
  end_of_data : Bool
  deriving DecidableEq

/-- List of TypeError messages that `format_operation` converts into a
`ProgrammingError`. -/
def FORMAT_OPERATION_ERRORS : List String :=
  ["not enough arguments for format string",
   "not all arguments converted during string formatting"]

/-- Embeds `format_operation`.  Python's `%` operator and `escape_values` are
external collaborators, passed in as `pyFormat` (returning the TypeError
message on failure) and `escape`. -/
def format_operation (pyFormat : String → PyParam → Except String String)
    (escape : PyParam → PyParam)
    (operation : String) (parameters : Option PyParam) : Except PyError String :=
  match parameters with
  | none => .ok operation
  | some ps =>
      let e_values := escape ps
      match pyFormat operation e_values with
      | .ok op => .ok op
      | .error msg =>
          if FORMAT_OPERATION_ERRORS.contains msg then
            .error (.programmingError msg)
          else
            .error (.typeError msg)

/-- Validation and binding of one application row, as done inline in
`PreparedStatement.next`: reject a non-list/tuple row, reject a row whose
length differs from the parameter metadata, then build one ParamTuple per
declared parameter, indexing the row by the parameter's declared id
(an out-of-range declared id would raise IndexError in Python). -/
def bindRow (md : List ParamMetadata) (p : PyParam) : Except PyError (List ParamTuple) :=
  match p with
  | .scalar _ =>
      .error (.programmingError
        "Prepared statement parameters supplied as scalar, shall be list or tuple.")
  | .seq vals =>
      if vals.length ≠ md.length then
        .error (.programmingError
          ("Prepared statement parameters expected " ++ toString md.length ++
           " supplied " ++ toString vals.length ++ "."))
      else if md.all (fun pm => pm.id < vals.length) then
        .ok (md.map (fun pm => ⟨pm.id, pm.datatype, pm.length, vals.getD pm.id PyVal.null⟩))
      else
        .error .indexError

/-- Embeds `PreparedStatement.next`: end-of-data check first, then the lookahead
stack, then the underlying row source (setting `end_of_data` on
exhaustion), then shape/arity validation and binding.  Returns the mutated
statement together with the row or the raised signal. -/
def PreparedStatement.next (ps : PreparedStatement) :
    PreparedStatement × Except PyError (List ParamTuple) :=
  if ps.end_of_data then
    (ps, .error .stopIteration)
  else
    match ps.pushed_row_params with
    | rp :: rest => ({ ps with pushed_row_params := rest }, .ok rp)
    | [] =>
        match ps.multi_row_parameters with
        | [] => ({ ps with end_of_data := true }, .error .stopIteration)
        | p :: rest =>
            let ps1 := { ps with multi_row_parameters := rest }
            match bindRow ps.params_metadata p with
            | .error e => (ps1, .error e)
            | .ok rp => (ps1, .ok rp)

/-- Embeds `PreparedStatement.push_back`. -/
def PreparedStatement.push_back (ps : PreparedStatement) (rp : List ParamTuple) :
    PreparedStatement :=
  { ps with pushed_row_params := rp :: ps.pushed_row_params }

/-- Embeds `PreparedStatement.prepare_parameters`: reset `end_of_data`, install the
new batch, return the statement itself. -/
def PreparedStatement.prepare_parameters (ps : PreparedStatement)
    (multi_row_parameters : List PyParam) : PreparedStatement :=
  { ps with end_of_data := false, multi_row_parameters := multi_row_parameters }

/-- Binding of the whole remaining row source in pull order, stopping at the
first row that `bindRow` rejects. -/
def drainSource (md : List ParamMetadata) : List PyParam → Except PyError (List (List ParamTuple))
  | [] => .ok []
  | p :: rest =>
      match bindRow md p with
      | .error e => .error e
      | .ok rp =>
          match drainSource md rest with
          | .error e => .error e
          | .ok rps => .ok (rp :: rps)

/-- Modelled from the spec: the `Parameters` request part (in
`pyhdb.protocol.parts`, outside `src/`) consumes the row binder by repeated
`pull()` while serializing a prepared-execute request; per §4.2/§7 a binding
error surfaces before the request reaches the network layer.  This packer
pulls every available row into a single request: the lookahead stack is
drained first, then the source — exactly the order repeated
`PreparedStatement.next` calls produce (a source pull never pushes, so the
two phases do not interleave).  On a binding error the whole call aborts, so
the post-error iterator state is not tracked. -/
def pullAll (ps : PreparedStatement) :
    PreparedStatement × Except PyError (List (List ParamTuple)) :=
  if ps.end_of_data then
    (ps, .ok [])
  else
    match drainSource ps.params_metadata ps.multi_row_parameters with
    | .error e => (ps, .error e)
    | .ok rps =>
        ({ ps with pushed_row_params := [], multi_row_parameters := [],
                   end_of_data := true },
         .ok (ps.pushed_row_params ++ rps))

/-- Cursor state (`Cursor.__init__` fields plus the attributes created
during execution).  `_executed`, initially `None`, is a Bool;
`_resultset_id` and `_column_types`, created on the first select, are
Options; the prepared-statement dict is an association list where insertion
conses and lookup takes the first hit. -/
structure CursorState where
  connection : Option Connection
  buffer : List Row
  received_last_resultset_part : Bool
  executed : Bool
  rowcount : Int
  description : Option (List ColumnDescriptor)
  rownumber : Option Nat
  arraysize : Int
  prepared_statements : List (Nat × PreparedStatement)
  resultset_id : Option Nat
  column_types : Option (List Int)
  deriving DecidableEq

/-- Embeds `Cursor.__init__`. -/
def Cursor.new (connection : Connection) : CursorState :=
  { connection := some connection
    buffer := []
    received_last_resultset_part := false
    executed := false
    rowcount := -1
    description := none
    rownumber := none
    arraysize := 1
    prepared_statements := []
    resultset_id := none
    column_types := none }

/-- Embeds `Cursor._check_closed`: raise `ProgrammingError("Cursor closed")` when
the connection reference is absent or the connection is closed. -/
def check_closed (c : CursorState) : Except PyError Unit :=
  match c.connection with
  | none => .error (.programmingError "Cursor closed")
  | some conn =>
      if conn.closed then .error (.programmingError "Cursor closed") else .ok ()

/-- Embeds `Cursor.close`: sever the connection reference, nothing else. -/
def Cursor.close (c : CursorState) : CursorState :=
  { c with connection := none }

/-- Embeds `Cursor._handle_result_metadata`: build the description tuples and the
column codec list; an unknown type code (not in the external `by_type_code`
registry, passed here as the predicate `byTypeCode`) raises InterfaceError
at the offending column. -/
def handle_result_metadata (byTypeCode : Int → Bool) :
    List ColumnRecord → Except PyError (List ColumnDescriptor × List Int)
  | [] => .ok ([], [])
  | col :: rest =>
      if byTypeCode col.f1 then
        match handle_result_metadata byTypeCode rest with
        | .error e => .error e
        | .ok (ds, ts) =>
            .ok (⟨col.f8, col.f1, none, col.f3, col.f2, none, Int.land col.f0 2⟩ :: ds,
                 col.f1 :: ts)
      else
        .error (.interfaceError ("Unknown column data type: " ++ toString col.f1))

/-- The part loop of `Cursor._handle_prepared_select`: RESULTSETID records
the handle, RESULTSET replaces the buffer, stores the final-chunk bit and
marks the cursor executed, STATEMENTCONTEXT is skipped, anything else is an
InterfaceError. -/
def prepared_select_parts (c : CursorState) : List RespPart → Except PyError CursorState
  | [] => .ok c
  | part :: rest =>
      match part with
      | .resultSetId rid =>
          prepared_select_parts { c with resultset_id := some rid } rest
      | .resultSet rows lastChunk =>
          prepared_select_parts
            { c with buffer := rows,
                     received_last_resultset_part := lastChunk,
                     executed := true } rest
      | .statementContext => prepared_select_parts c rest
      | _ => .error (.interfaceError "Prepared select statement response, unexpected part kind.")

/-- Embeds `Cursor._handle_prepared_select`: reset `rowcount`, derive description
and column types from the prepared statement's result metadata part
(AttributeError when it is `None`), then walk the parts. -/
def handle_prepared_select (byTypeCode : Int → Bool) (c : CursorState)
    (result_metadata : Option (List ColumnRecord)) (parts : List RespPart) :
    Except PyError CursorState :=
  match result_metadata with
  | none => .error .attributeError
  | some cols =>
      match handle_result_metadata byTypeCode cols with
      | .error e => .error e
      | .ok (desc, types) =>
          prepared_select_parts
            { c with rowcount := -1,
                     description := some desc,
                     column_types := some types } parts

/-- Embeds `Cursor._handle_prepared_insert`: ROWSAFFECTED sets `rowcount` from its
first value (IndexError when empty), TRANSACTIONFLAGS and STATEMENTCONTEXT
are skipped, anything else is an InterfaceError; finally the cursor is
marked executed.  `description` is not touched. -/
def handle_prepared_insert (c : CursorState) : List RespPart → Except PyError CursorState
  | [] => .ok { c with executed := true }
  | part :: rest =>
      match part with
      | .rowsAffected (v :: _) => handle_prepared_insert { c with rowcount := v } rest
      | .rowsAffected [] => .error .indexError
      | .transactionFlags => handle_prepared_insert c rest
      | .statementContext => handle_prepared_insert c rest
      | _ => .error (.interfaceError "Prepared insert statement response, unexpected part kind.")

/-- Embeds `Cursor._handle_select`: positional unpack of exactly four parts
(metadata, result-set id, an unused third part, result set); a response of
any other shape raises.  Sets metadata, handle, buffer, final-chunk bit and
the executed flag. -/
def handle_select (byTypeCode : Int → Bool) (c : CursorState) (parts : List RespPart) :
    Except PyError CursorState :=
  match parts with
  | [RespPart.resultSetMetadata cols, RespPart.resultSetId rid, _,
     RespPart.resultSet rows lastChunk] =>
      match handle_result_metadata byTypeCode cols with
      | .error e => .error e
      | .ok (desc, types) =>
          .ok { c with rowcount := -1,
                       description := some desc,
                       column_types := some types,
                       resultset_id := some rid,
                       buffer := rows,
                       received_last_resultset_part := lastChunk,
                       executed := true }
  | _ => .error .valueError

/-- Embeds `Cursor._handle_insert`: `rowcount` from `parts[0].values[0]`,
`description` cleared.  (Note: unlike the prepared handler this one does
not set the executed flag.) -/
def handle_insert (c : CursorState) (parts : List RespPart) : Except PyError CursorState :=
  match parts with
  | RespPart.rowsAffected (v :: _) :: _ =>
      .ok { c with rowcount := v, description := none }
  | RespPart.rowsAffected [] :: _ => .error .indexError
  | _ => .error .attributeError

/-- Function-code dispatch of `Cursor._execute_direct` (lines 211-221). -/
def handle_direct_response (byTypeCode : Int → Bool) (c : CursorState)
    (fc : FunctionCode) (parts : List RespPart) : Except PyError CursorState :=
  match fc with
  | .select => handle_select byTypeCode c parts
  | .dml _ => handle_insert c parts
  | .ddl => .ok c
  | .other _ => .error (.interfaceError "Invalid or unsupported function code received")

/-- Function-code dispatch of `Cursor.execute_prepared` (lines 185-195). -/
def handle_prepared_response (byTypeCode : Int → Bool) (c : CursorState)
    (result_metadata : Option (List ColumnRecord))
    (fc : FunctionCode) (parts : List RespPart) : Except PyError CursorState :=
  match fc with
  | .select => handle_prepared_select byTypeCode c result_metadata parts
  | .dml _ => handle_prepared_insert c parts
  | .ddl => .ok c
  | .other _ => .error (.interfaceError "Invalid or unsupported function code received")

/-- Embeds `Cursor._execute_direct`: issue one EXECUTEDIRECT request, then dispatch
on the response's function code.  The response is supplied by the caller
(the transport is external). -/
def execute_direct (byTypeCode : Int → Bool) (c : CursorState) (operation : String)
    (resp : FunctionCode × List RespPart) :
    CursorState × List Request × Except PyError Unit :=
  let req := Request.executeDirect operation
  match handle_direct_response byTypeCode c resp.1 resp.2 with
  | .error e => (c, [req], .error e)
  | .ok c1 => (c1, [req], .ok ())

/-- The scan loop of `Cursor.prepare` over the response parts: plain
variable assignments, so a later part of the same kind wins and unknown
kinds are silently skipped. -/
def prepare_scan
    (acc : Option Nat × Option (List ParamMetadata) × Option (List ColumnRecord)) :
    List RespPart → Option Nat × Option (List ParamMetadata) × Option (List ColumnRecord)
  | [] => acc
  | part :: rest =>
      match part with
      | .statementId sid => prepare_scan (some sid, acc.2.1, acc.2.2) rest
      | .parameterMetadata md => prepare_scan (acc.1, some md, acc.2.2) rest
      | .resultSetMetadata cols => prepare_scan (acc.1, acc.2.1, some cols) rest
      | _ => prepare_scan acc rest

/-- Embeds `Cursor.prepare`: closed check, one PREPARE request, scan the response
parts for statement id / parameter metadata / result metadata, `assert` that
the two mandatory ones arrived, cache a PreparedStatement under the id and
return the id.  `prepResp` is the transport's outcome: either the response
parts or the message of a raised DatabaseError. -/
def prepare (c : CursorState) (statement : String)
    (prepResp : Except String (List RespPart)) :
    CursorState × List Request × Except PyError Nat :=
  match check_closed c with
  | .error e => (c, [], .error e)
  | .ok _ =>
      let req := Request.prepare statement
      match prepResp with
      | .error msg => (c, [req], .error (.databaseError msg))
      | .ok parts =>
          let scan := prepare_scan (none, none, none) parts
          match scan.1, scan.2.1 with
          | some sid, some md =>
              let ps : PreparedStatement :=
                { statement_id := sid
                  params_metadata := md
                  result_metadata_part := scan.2.2
                  pushed_row_params := []
                  multi_row_parameters := []
                  end_of_data := false }
              ({ c with prepared_statements := (sid, ps) :: c.prepared_statements },
               [req], .ok sid)
          | _, _ => (c, [req], .error .assertionError)

/-- Embeds `Cursor.execute_prepared`: closed check, bind the batch through
`prepare_parameters`, then the `while parameters:` loop.  With the
whole-batch packer (`pullAll`) the loop body runs exactly once: the first
truthiness check passes (`end_of_data` was just reset) and packing leaves
`end_of_data` true.  A binding error aborts before any request is issued. -/
def execute_prepared (byTypeCode : Int → Bool) (c : CursorState)
    (ps : PreparedStatement) (multi_row_parameters : List PyParam)
    (resp : FunctionCode × List RespPart) :
    CursorState × List Request × Except PyError Unit :=
  match check_closed c with
  | .error e => (c, [], .error e)
  | .ok _ =>
      let ps1 := ps.prepare_parameters multi_row_parameters
      match pullAll ps1 with
      | (_, .error e) => (c, [], .error e)
      | (_, .ok packed) =>
          let req := Request.executePrepared ps.statement_id packed
          match handle_prepared_response byTypeCode c ps.result_metadata_part resp.1 resp.2 with
          | .error e => (c, [req], .error e)
          | .ok c1 => (c1, [req], .ok ())

/-- The server-error signature that triggers the textual-substitution
fallback in `executemany`. -/
def percentSignature : String := "incorrect syntax near \"%\""

/-- Substring containment on strings (Python's `in` operator). -/
def strContains (haystack needle : String) : Bool :=
  decide (needle.data <:+: haystack.data)

/-- The fallback loop of `Cursor.executemany`: for each row, printf-style
substitution of the row into the statement, then one direct-execute
request; a substitution or handling error aborts the loop. -/
def executemanyFallback (byTypeCode : Int → Bool)
    (pyFormat : String → PyParam → Except String String) (escape : PyParam → PyParam)
    (statement : String) (directRespond : String → FunctionCode × List RespPart) :
    CursorState → List PyParam → CursorState × List Request × Except PyError Unit
  | c, [] => (c, [], .ok ())
  | c, row :: rest =>
      match format_operation pyFormat escape statement (some row) with
      | .error e => (c, [], .error e)
      | .ok operation =>
          let step := execute_direct byTypeCode c operation (directRespond operation)
          match step.2.2 with
          | .error e => (step.1, step.2.1, .error e)
          | .ok _ =>
              let next_ := executemanyFallback byTypeCode pyFormat escape statement
                directRespond step.1 rest
              (next_.1, step.2.1 ++ next_.2.1, next_.2.2)

/-- Embeds `Cursor.executemany`: try server-side preparation first; on a
DatabaseError whose message carries the percent-sign signature, fall back to
per-row textual substitution and direct execution; any other preparation
error propagates.  (In the DBAPI exception hierarchy ProgrammingError is a
DatabaseError subclass, so Python's `except DatabaseError` also catches the
closed-cursor error — whose message lacks the signature, so it is re-raised
unchanged; the outcome matches catching only server-reported errors.)
On success, run the prepared path against the cached statement. -/
def executemany (byTypeCode : Int → Bool)
    (pyFormat : String → PyParam → Except String String) (escape : PyParam → PyParam)
    (c : CursorState) (statement : String) (parameters : List PyParam)
    (prepResp : Except String (List RespPart))
    (directRespond : String → FunctionCode × List RespPart)
    (prepExecResp : FunctionCode × List RespPart) :
    CursorState × List Request × Except PyError Unit :=
  let prep := prepare c statement prepResp
  match prep.2.2 with
  | .error (.databaseError msg) =>
      if strContains msg percentSignature then
        let fb := executemanyFallback byTypeCode pyFormat escape statement
          directRespond prep.1 parameters
        (fb.1, prep.2.1 ++ fb.2.1, fb.2.2)
      else
        (prep.1, prep.2.1, .error (.databaseError msg))
  | .error e => (prep.1, prep.2.1, .error e)
  | .ok sid =>
      match List.lookup sid prep.1.prepared_statements with
      | none => (prep.1, prep.2.1, .error .keyError)
      | some ps =>
          let run := execute_prepared byTypeCode prep.1 ps parameters prepExecResp
          (run.1, prep.2.1 ++ run.2.1, run.2.2)

/-- Embeds `Cursor.execute`: closed check; with no (or falsy/empty) parameters,
direct execution of the literal statement; otherwise a single-row
`executemany`. -/
def Cursor.execute (byTypeCode : Int → Bool)
    (pyFormat : String → PyParam → Except String String) (escape : PyParam → PyParam)
    (c : CursorState) (statement : String) (parameters : Option (List PyVal))
    (prepResp : Except String (List RespPart))
    (directRespond : String → FunctionCode × List RespPart)
    (prepExecResp : FunctionCode × List RespPart) :
    CursorState × List Request × Except PyError Unit :=
  match check_closed c with
  | .error e => (c, [], .error e)
  | .ok _ =>
      match parameters with
      | none => execute_direct byTypeCode c statement (directRespond statement)
      | some [] => execute_direct byTypeCode c statement (directRespond statement)
      | some vals =>
          executemany byTypeCode pyFormat escape c statement [PyParam.seq vals]
            prepResp directRespond prepExecResp

/-- The buffer-draining `while` loop of `Cursor.fetchmany`: dequeue rows
from the front while the buffer is non-empty and rows are still missing.
Returns the dequeued rows, the remaining buffer and the still-missing
count. -/
def popFromBuffer : List Row → Int → List Row × List Row × Int
  | [], missing => ([], [], missing)
  | row :: rest, missing =>
      if 0 < missing then
        let r := popFromBuffer rest (missing - 1)
        (row :: r.1, r.2.1, r.2.2)
      else
        ([], row :: rest, missing)

/-- The result of a fetch operation: the cursor, the rows still held
server-side, the requests issued and the returned value. -/
structure FetchOut where
  cursor : CursorState
  server : List Row
  requests : List Request
  result : Except PyError (List Row)
  deriving DecidableEq

/-- Embeds `Cursor.fetchmany`.  The server side of the FETCHNEXT round trip is
modelled from the spec (§6, §8): the server holds the not-yet-delivered
rows `srv` of the active result set and answers a continuation carrying
fetch size `m` with at most `min m cap` rows (`cap` is the server's chunk
size), setting the final-chunk bit exactly when nothing remains.  The
cursor logic itself follows the source: closed check, executed check,
default size from `arraysize`, drain the buffer, return immediately when
satisfied or when the last part was already received, otherwise exactly one
FETCHNEXT request whose returned rows are appended to the result. -/
def fetchmany (cap : Nat) (c : CursorState) (srv : List Row) (size : Option Int) : FetchOut :=
  match check_closed c with
  | .error e => ⟨c, srv, [], .error e⟩
  | .ok _ =>
      if c.executed = false then
        ⟨c, srv, [], .error (.programmingError "Require execute() first")⟩
      else
        let sz := size.getD c.arraysize
        let popped := popFromBuffer c.buffer sz
        let taken := popped.1
        let missing := popped.2.2
        let c1 := { c with buffer := popped.2.1 }
        if missing = 0 ∨ c1.received_last_resultset_part then
          ⟨c1, srv, [], .ok taken⟩
        else
          match c1.resultset_id with
          | none => ⟨c1, srv, [], .error .attributeError⟩
          | some rid =>
              let k := min missing.toNat cap
              let chunk := srv.take k
              let rest := srv.drop k
              let lastBit := rest.isEmpty
              let c2 := { c1 with received_last_resultset_part :=
                            c1.received_last_resultset_part || lastBit }
              ⟨c2, rest, [Request.fetchNext rid missing], .ok (taken ++ chunk)⟩

/-- Embeds `Cursor.fetchone`: `fetchmany(size=1)`, returning the single row or an
explicit no-row result. -/
def fetchone (cap : Nat) (c : CursorState) (srv : List Row) :
    CursorState × List Row × List Request × Except PyError (Option Row) :=
  let o := fetchmany cap c srv (some 1)
  match o.result with
  | .error e => (o.cursor, o.server, o.requests, .error e)
  | .ok rows => (o.cursor, o.server, o.requests, .ok rows.head?)

/-- The accumulation loop of `Cursor.fetchall`: keep calling `fetchmany()`
while the buffer is non-empty or the last part has not been received.  The
fuel bounds the number of iterations (the Python loop has no bound of its
own); exhausting it yields the `outOfFuel` marker. -/
def fetchallLoop (cap : Nat) : Nat → CursorState → List Row → List Row → FetchOut
  | 0, c, srv, acc =>
      if c.buffer ≠ [] ∨ c.received_last_resultset_part = false then
        ⟨c, srv, [], .error .outOfFuel⟩
      else
        ⟨c, srv, [], .ok acc⟩
  | fuel + 1, c, srv, acc =>
      if c.buffer ≠ [] ∨ c.received_last_resultset_part = false then
        let o := fetchmany cap c srv none
        match o.result with
        | .error e => ⟨o.cursor, o.server, o.requests, .error e⟩
        | .ok rows =>
            let r := fetchallLoop cap fuel o.cursor o.server (acc ++ rows)
            ⟨r.cursor, r.server, o.requests ++ r.requests, r.result⟩
      else
        ⟨c, srv, [], .ok acc⟩

/-- Embeds `Cursor.fetchall`: one initial `fetchmany()`, then the accumulation
loop. -/
def fetchall (cap fuel : Nat) (c : CursorState) (srv : List Row) : FetchOut :=
  let o := fetchmany cap c srv none
  match o.result with
  | .error e => ⟨o.cursor, o.server, o.requests, .error e⟩
  | .ok rows =>
      let r := fetchallLoop cap fuel o.cursor o.server rows
      ⟨r.cursor, r.server, o.requests ++ r.requests, r.result⟩

end PyHDB

namespace PyHDB

/-! ## Helper lemmas -/

theorem check_closed_ok (c : CursorState) (conn : Connection)
    (hconn : c.connection = some conn) (hopen : conn.closed = false) :
    check_closed c = .ok () := by
  simp [check_closed, hconn, hopen]

theorem check_closed_closed (c : CursorState)
    (h : c.connection = none ∨ ∃ conn, c.connection = some conn ∧ conn.closed = true) :
    check_closed c = .error (.programmingError "Cursor closed") := by
  rcases h with h | ⟨conn, hc, hcl⟩ <;> simp [check_closed, *]

theorem popFromBuffer_nonpos (l : List Row) (m : Int) (h : m ≤ 0) :
    popFromBuffer l m = ([], l, m) := by
  cases l with
  | nil => rfl
  | cons row rest => simp [popFromBuffer, h, not_lt.mpr h]

end PyHDB

namespace PyHDB

/-- Updating the executed flag with its known value is the identity. -/
theorem CursorState.update_executed_self (c : CursorState) (h : c.executed = true) :
    { c with executed := true } = c := by
  cases c
  simp_all

/-- Updating the end-of-data flag with its known value is the identity. -/
theorem PreparedStatement.update_end_of_data_self (ps : PreparedStatement)
    (h : ps.end_of_data = false) : { ps with end_of_data := false } = ps := by
  cases ps
  simp_all

/-! ## C10: close only severs the connection reference -/

/-- C10: `close()` only clears the cursor's connection reference — the
buffer, `rowcount`, `description`, `arraysize` and the prepared-statement
cache are left unchanged — and closing an already-closed cursor succeeds
(close is idempotent). -/
theorem claim_C10_close_frame (c : CursorState) :
    Cursor.close c = { c with connection := none } ∧
    (Cursor.close c).connection = none ∧
    (Cursor.close c).buffer = c.buffer ∧
    (Cursor.close c).rowcount = c.rowcount ∧
    (Cursor.close c).description = c.description ∧
    (Cursor.close c).arraysize = c.arraysize ∧
    (Cursor.close c).prepared_statements = c.prepared_statements ∧
    Cursor.close (Cursor.close c) = Cursor.close c :=
  ⟨rfl, rfl, rfl, rfl, rfl, rfl, rfl, rfl⟩

/-! ## C9: fetchmany with an explicit size of 0 -/

/-- C9: on an executed, open cursor, `fetchmany(0)` returns the empty list
and issues no network request, whatever the buffer contents and the
last-chunk flag; cursor and server state are untouched. -/
theorem claim_C9_fetchmany_zero (cap : Nat) (c : CursorState) (srv : List Row)
    (conn : Connection) (hconn : c.connection = some conn) (hopen : conn.closed = false)
    (hexec : c.executed = true) :
    fetchmany cap c srv (some 0) = ⟨c, srv, [], .ok []⟩ := by
  have hcc := check_closed_ok c conn hconn hopen
  have hpop := popFromBuffer_nonpos c.buffer 0 le_rfl
  simp [fetchmany, hcc, hexec, hpop]
  exact CursorState.update_executed_self c hexec

/-- Witness for C9 at a concrete executed cursor holding a buffered row. -/
theorem claim_C9_witness :
    fetchmany 1 { Cursor.new ⟨false⟩ with executed := true, buffer := [[PyVal.int 1]] }
        [[PyVal.int 2]] (some 0)
      = ⟨{ Cursor.new ⟨false⟩ with executed := true, buffer := [[PyVal.int 1]] },
         [[PyVal.int 2]], [], .ok []⟩ :=
  claim_C9_fetchmany_zero 1 _ _ ⟨false⟩ rfl rfl rfl

/-! ## C6: push-back / pull on the prepared-statement row binder -/

/-- Prepared statement used by the C6 counterexample: a one-row batch has
been installed and nothing pulled yet. -/
def psC6 : PreparedStatement :=
  { statement_id := 7
    params_metadata := [⟨0, 3, 10⟩]
    result_metadata_part := none
    pushed_row_params := []
    multi_row_parameters := [PyParam.seq [PyVal.int 42]]
    end_of_data := false }

/-- The row the C6 counterexample pulls and pushes back. -/
def rpC6 : List ParamTuple := [⟨0, 3, 10, PyVal.int 42⟩]

/-- C6 counterexample: pull the only row of the batch, pull again (which
signals end-of-sequence and latches `end_of_data`), then push the
previously pulled row back and pull.  The claim promises the pushed row
comes back; the code instead signals end-of-sequence again, because `next`
tests `end_of_data` before looking at the lookahead stack. -/
theorem claim_C6_counterexample :
    psC6.next.2 = .ok rpC6 ∧
    (psC6.next.1).next.2 = .error .stopIteration ∧
    (((psC6.next.1).next.1).push_back rpC6).next.2 = .error PyError.stopIteration := by
  refine ⟨by decide, by decide, by decide⟩

/-- C6 (amended): provided end-of-data has not been signalled, `pushBack(r)`
followed by `pull()` returns exactly `r` and restores the statement state;
and whenever the lookahead stack and the underlying row source are both
exhausted, `pull()` deterministically signals end-of-sequence. -/
theorem claim_C6_pushback_pull :
    (∀ (ps : PreparedStatement) (rp : List ParamTuple), ps.end_of_data = false →
        (ps.push_back rp).next = (ps, .ok rp)) ∧
    (∀ ps : PreparedStatement, ps.pushed_row_params = [] →
        ps.multi_row_parameters = [] → ps.next.2 = .error .stopIteration) := by
  constructor
  · intro ps rp h
    simp [PreparedStatement.next, PreparedStatement.push_back, h]
    exact PreparedStatement.update_end_of_data_self ps h
  · intro ps h1 h2
    by_cases he : ps.end_of_data <;>
      simp [PreparedStatement.next, he, h1, h2]

/-- Witness for C6 at a concrete prepared statement with live data. -/
theorem claim_C6_witness :
    (PreparedStatement.push_back
        { statement_id := 1, params_metadata := [], result_metadata_part := none,
          pushed_row_params := [], multi_row_parameters := [PyParam.seq []],
          end_of_data := false }
        [⟨0, 1, 1, PyVal.null⟩]).next
      = ({ statement_id := 1, params_metadata := [], result_metadata_part := none,
           pushed_row_params := [], multi_row_parameters := [PyParam.seq []],
           end_of_data := false },
         .ok [⟨0, 1, 1, PyVal.null⟩]) :=
  claim_C6_pushback_pull.1 _ _ rfl

/-! ## C2: data-modification response on the prepared path -/

/-- Frame property of the prepared insert handler: it never touches the
description and always marks the cursor executed on success. -/
theorem handle_prepared_insert_frame (parts : List RespPart) :
    ∀ c c2 : CursorState, handle_prepared_insert c parts = .ok c2 →
      c2.description = c.description ∧ c2.executed = true := by
  induction parts with
  | nil =>
      intro c c2 h
      simp [handle_prepared_insert] at h
      simp [← h]
  | cons p rest ih =>
      intro c c2 h
      cases p with
      | rowsAffected vs =>
          cases vs with
          | nil => simp [handle_prepared_insert] at h
          | cons v vrest =>
              have := ih _ _ h
              simpa using this
      | transactionFlags => exact ih _ _ h
      | statementContext => exact ih _ _ h
      | statementId sid => simp [handle_prepared_insert] at h
      | parameterMetadata md => simp [handle_prepared_insert] at h
      | resultSetMetadata cols => simp [handle_prepared_insert] at h
      | resultSetId rid => simp [handle_prepared_insert] at h
      | resultSet rows lastChunk => simp [handle_prepared_insert] at h
      | other k => simp [handle_prepared_insert] at h

/-- On a trailing list of skipped part kinds the prepared insert handler
only sets the executed flag. -/
theorem handle_prepared_insert_benign (rest : List RespPart)
    (h : ∀ p ∈ rest, p = RespPart.transactionFlags ∨ p = RespPart.statementContext) :
    ∀ c : CursorState, handle_prepared_insert c rest = .ok { c with executed := true } := by
  induction rest with
  | nil => intro c; rfl
  | cons p rest ih =>
      intro c
      have hp := h p (List.mem_cons_self p rest)
      have hrest : ∀ q ∈ rest, q = RespPart.transactionFlags ∨ q = RespPart.statementContext :=
        fun q hq => h q (List.mem_cons_of_mem p hq)
      rcases hp with hp | hp <;> subst hp <;> exact ih hrest c

/-- C2 counterexample: the cursor before the response carries a non-absent
description. -/
def cexC2 : CursorState :=
  { Cursor.new ⟨false⟩ with description := some [⟨"id", 3, none, 10, 0, none, 2⟩] }

/-- C2 counterexample: a data-modification (DML) response routed through the
prepared-statement path updates `rowcount` but leaves `description` exactly
as it was — here still present — contradicting the claim that description
is set to absent. -/
theorem claim_C2_counterexample :
    handle_prepared_response (fun _ => true) cexC2 none (.dml 1) [.rowsAffected [5]]
      = .ok { cexC2 with rowcount := 5, executed := true } ∧
    ({ cexC2 with rowcount := 5, executed := true }).description ≠ none := by
  refine ⟨by decide, by decide⟩

/-- C2 (amended): a prepared-statement execute response with a
data-modification function code is handled by `_handle_prepared_insert`,
which sets `rowcount` from the rows-affected part and marks the cursor
executed; `description` is left unchanged (only the direct-execute insert
handler clears it). -/
theorem claim_C2_prepared_insert :
    (∀ (tc : Int → Bool) (c : CursorState) (rm : Option (List ColumnRecord))
        (k : Nat) (parts : List RespPart),
        handle_prepared_response tc c rm (.dml k) parts = handle_prepared_insert c parts) ∧
    (∀ (c c2 : CursorState) (parts : List RespPart),
        handle_prepared_insert c parts = .ok c2 →
        c2.description = c.description ∧ c2.executed = true) ∧
    (∀ (c : CursorState) (n : Int) (rest : List RespPart),
        (∀ p ∈ rest, p = RespPart.transactionFlags ∨ p = RespPart.statementContext) →
        handle_prepared_insert c (RespPart.rowsAffected [n] :: rest)
          = .ok { c with rowcount := n, executed := true }) := by
  refine ⟨fun tc c rm k parts => rfl, fun c c2 parts h => handle_prepared_insert_frame parts c c2 h, ?_⟩
  intro c n rest h
  show handle_prepared_insert { c with rowcount := n } rest = _
  exact handle_prepared_insert_benign rest h _

/-- Witness for C2 (amended) at a concrete DML response. -/
theorem claim_C2_witness :
    handle_prepared_insert (Cursor.new ⟨false⟩)
        [RespPart.rowsAffected [3], RespPart.transactionFlags]
      = .ok { Cursor.new ⟨false⟩ with rowcount := 3, executed := true } :=
  claim_C2_prepared_insert.2.2 (Cursor.new ⟨false⟩) 3 [RespPart.transactionFlags]
    (by simp)

end PyHDB

namespace PyHDB

/-! ## C8: every operation except close fails on a closed cursor -/

/-- C8: when the cursor's connection reference is absent or the connection
is closed, `execute`, `executemany`, `prepare`, `fetchone`, `fetchmany` and
`fetchall` all raise the closed-cursor usage error without issuing any
network request, while `close` itself succeeds. -/
theorem claim_C8_closed_guard (c : CursorState)
    (h : c.connection = none ∨ ∃ conn, c.connection = some conn ∧ conn.closed = true) :
    (∀ tc pf ev stmt params prepResp dr per,
        Cursor.execute tc pf ev c stmt params prepResp dr per
          = (c, [], .error (.programmingError "Cursor closed"))) ∧
    (∀ tc pf ev stmt params prepResp dr per,
        executemany tc pf ev c stmt params prepResp dr per
          = (c, [], .error (.programmingError "Cursor closed"))) ∧
    (∀ stmt prepResp,
        prepare c stmt prepResp = (c, [], .error (.programmingError "Cursor closed"))) ∧
    (∀ cap srv,
        fetchone cap c srv = (c, srv, [], .error (.programmingError "Cursor closed"))) ∧
    (∀ cap srv size,
        fetchmany cap c srv size = ⟨c, srv, [], .error (.programmingError "Cursor closed")⟩) ∧
    (∀ cap fuel srv,
        fetchall cap fuel c srv = ⟨c, srv, [], .error (.programmingError "Cursor closed")⟩) ∧
    Cursor.close c = { c with connection := none } := by
  have hcc := check_closed_closed c h
  refine ⟨?_, ?_, ?_, ?_, ?_, ?_, rfl⟩
  · intro tc pf ev stmt params prepResp dr per
    simp [Cursor.execute, hcc]
  · intro tc pf ev stmt params prepResp dr per
    simp [executemany, prepare, hcc]
  · intro stmt prepResp
    simp [prepare, hcc]
  · intro cap srv
    simp [fetchone, fetchmany, hcc]
  · intro cap srv size
    simp [fetchmany, hcc]
  · intro cap fuel srv
    simp [fetchall, fetchmany, hcc]

/-- Witness for C8 at a concrete cursor whose connection is closed. -/
theorem claim_C8_witness :
    prepare { Cursor.new ⟨true⟩ with rowcount := 5 } "SELECT 1 FROM DUMMY" (.ok [])
      = ({ Cursor.new ⟨true⟩ with rowcount := 5 }, [],
         .error (.programmingError "Cursor closed")) :=
  (claim_C8_closed_guard { Cursor.new ⟨true⟩ with rowcount := 5 }
    (Or.inr ⟨⟨true⟩, rfl, rfl⟩)).2.2.1 "SELECT 1 FROM DUMMY" (.ok [])

/-! ## C7: prepare requires statement id and parameter metadata -/

/-- Whether the response carries a statement-identifier part. -/
def hasStatementId : List RespPart → Bool
  | [] => false
  | p :: rest =>
      match p with
      | .statementId _ => true
      | _ => hasStatementId rest

/-- Whether the response carries a parameter-metadata part. -/
def hasParamMetadata : List RespPart → Bool
  | [] => false
  | p :: rest =>
      match p with
      | .parameterMetadata _ => true
      | _ => hasParamMetadata rest

theorem prepare_scan_fst_isSome (parts : List RespPart) :
    ∀ acc, (prepare_scan acc parts).1.isSome = (hasStatementId parts || acc.1.isSome) := by
  induction parts with
  | nil => intro acc; simp [prepare_scan, hasStatementId]
  | cons p rest ih =>
      intro acc
      cases p <;> simp [prepare_scan, hasStatementId, ih]

theorem prepare_scan_snd_isSome (parts : List RespPart) :
    ∀ acc, (prepare_scan acc parts).2.1.isSome = (hasParamMetadata parts || acc.2.1.isSome) := by
  induction parts with
  | nil => intro acc; simp [prepare_scan, hasParamMetadata]
  | cons p rest ih =>
      intro acc
      cases p <;> simp [prepare_scan, hasParamMetadata, ih]

/-- C7: on an open cursor, `prepare` fails with the assertion (protocol
contract) error whenever the response lacks a statement-identifier part or
a parameter-metadata part; when both are present it returns a statement id
under which a `PreparedStatement` carrying that id is cached. -/
theorem claim_C7_prepare (c : CursorState) (stmt : String) (parts : List RespPart)
    (conn : Connection) (hconn : c.connection = some conn) (hopen : conn.closed = false) :
    ((hasStatementId parts = false ∨ hasParamMetadata parts = false) →
      prepare c stmt (.ok parts) = (c, [Request.prepare stmt], .error .assertionError)) ∧
    (hasStatementId parts = true → hasParamMetadata parts = true →
      ∃ (sid : Nat) (ps : PreparedStatement),
        (prepare c stmt (.ok parts)).2.2 = .ok sid ∧
        (prepare c stmt (.ok parts)).2.1 = [Request.prepare stmt] ∧
        List.lookup sid (prepare c stmt (.ok parts)).1.prepared_statements = some ps ∧
        ps.statement_id = sid) := by
  have hcc := check_closed_ok c conn hconn hopen
  have h1 := prepare_scan_fst_isSome parts (none, none, none)
  have h2 := prepare_scan_snd_isSome parts (none, none, none)
  constructor
  · intro h
    rcases hs1 : (prepare_scan (none, none, none) parts).1 with _ | sid <;>
      rcases hs2 : (prepare_scan (none, none, none) parts).2.1 with _ | md <;>
      simp [prepare, hcc, hs1, hs2]
    rw [hs1] at h1
    rw [hs2] at h2
    rcases h with h | h
    · simp [h] at h1
    · simp [h] at h2
  · intro ha hb
    rcases hs1 : (prepare_scan (none, none, none) parts).1 with _ | sid
    · rw [hs1] at h1; simp [ha] at h1
    rcases hs2 : (prepare_scan (none, none, none) parts).2.1 with _ | md
    · rw [hs2] at h2; simp [hb] at h2
    refine ⟨sid, ⟨sid, md, (prepare_scan (none, none, none) parts).2.2, [], [], false⟩,
      ?_, ?_, ?_, rfl⟩ <;>
      simp [prepare, hcc, hs1, hs2, List.lookup]

/-- Witness for C7 at a concrete response carrying both mandatory parts. -/
theorem claim_C7_witness :
    (hasStatementId [RespPart.statementId 9, RespPart.parameterMetadata []] = false ∨
      hasParamMetadata [RespPart.statementId 9, RespPart.parameterMetadata []] = false →
      prepare (Cursor.new ⟨false⟩) "SELECT A FROM T WHERE B = ?"
          (.ok [RespPart.statementId 9, RespPart.parameterMetadata []])
        = (Cursor.new ⟨false⟩, [Request.prepare "SELECT A FROM T WHERE B = ?"],
           .error .assertionError)) ∧
    (hasStatementId [RespPart.statementId 9, RespPart.parameterMetadata []] = true →
      hasParamMetadata [RespPart.statementId 9, RespPart.parameterMetadata []] = true →
      ∃ (sid : Nat) (ps : PreparedStatement),
        (prepare (Cursor.new ⟨false⟩) "SELECT A FROM T WHERE B = ?"
            (.ok [RespPart.statementId 9, RespPart.parameterMetadata []])).2.2 = .ok sid ∧
        (prepare (Cursor.new ⟨false⟩) "SELECT A FROM T WHERE B = ?"
            (.ok [RespPart.statementId 9, RespPart.parameterMetadata []])).2.1
          = [Request.prepare "SELECT A FROM T WHERE B = ?"] ∧
        List.lookup sid
            (prepare (Cursor.new ⟨false⟩) "SELECT A FROM T WHERE B = ?"
              (.ok [RespPart.statementId 9, RespPart.parameterMetadata []])).1.prepared_statements
          = some ps ∧
        ps.statement_id = sid) :=
  claim_C7_prepare (Cursor.new ⟨false⟩) "SELECT A FROM T WHERE B = ?"
    [RespPart.statementId 9, RespPart.parameterMetadata []] ⟨false⟩ rfl rfl

end PyHDB

namespace PyHDB

/-! ## C5: invalid parameter rows are rejected before the network -/

/-- A parameter row the binder accepts: a list/tuple of exactly the declared
arity whose declared parameter ids are all in range. -/
def validRow (md : List ParamMetadata) (r : PyParam) : Prop :=
  ∃ vals, r = PyParam.seq vals ∧ vals.length = md.length ∧ ∀ pm ∈ md, pm.id < vals.length

theorem bindRow_valid (md : List ParamMetadata) (vals : List PyVal)
    (hlen : vals.length = md.length) (hids : ∀ pm ∈ md, pm.id < vals.length) :
    bindRow md (PyParam.seq vals) =
      .ok (md.map (fun pm => ⟨pm.id, pm.datatype, pm.length, vals.getD pm.id PyVal.null⟩)) := by
  have hall : md.all (fun pm => pm.id < vals.length) = true := by
    rw [List.all_eq_true]
    intro pm hpm
    simpa using hids pm hpm
  simp [bindRow, hlen, hall]
  intro x hx
  rw [← hlen]
  exact hids x hx

theorem bindRow_invalid (md : List ParamMetadata) (bad : PyParam)
    (hbad : (∃ v, bad = PyParam.scalar v) ∨
            (∃ vals, bad = PyParam.seq vals ∧ vals.length ≠ md.length)) :
    ∃ m, bindRow md bad = .error (.programmingError m) ∧
      (∀ vals, bad = PyParam.seq vals →
        m = "Prepared statement parameters expected " ++ toString md.length ++
            " supplied " ++ toString vals.length ++ ".") := by
  rcases hbad with ⟨v, rfl⟩ | ⟨vals, rfl, hlen⟩
  · refine ⟨_, rfl, ?_⟩
    intro vals h
    simp at h
  · refine ⟨"Prepared statement parameters expected " ++ toString md.length ++
      " supplied " ++ toString vals.length ++ ".", ?_, ?_⟩
    · simp [bindRow, hlen]
    · intro vals2 h
      injection h with h
      subst h
      rfl

theorem drainSource_error (md : List ParamMetadata) (post : List PyParam) (bad : PyParam)
    (e : PyError) (hbad : bindRow md bad = .error e) :
    ∀ pre : List PyParam, (∀ r ∈ pre, validRow md r) →
      drainSource md (pre ++ bad :: post) = .error e := by
  intro pre
  induction pre with
  | nil =>
      intro _
      simp [drainSource, hbad]
  | cons r rest ih =>
      intro h
      obtain ⟨vals, hr, hlen, hids⟩ := h r (List.mem_cons_self _ _)
      subst hr
      rw [List.cons_append]
      simp [drainSource, bindRow_valid md vals hlen hids,
        ih (fun q hq => h q (List.mem_cons_of_mem _ hq))]

/-- C5: on an open cursor, handing the prepared-execute path a batch whose
first offending row is either not a list/tuple or has the wrong arity makes
the call raise a ProgrammingError — with the expected-versus-supplied
counts in the arity case — and issue no network request at all, so the
offending row never reaches the network layer. -/
theorem claim_C5_bad_row (tc : Int → Bool) (c : CursorState) (ps : PreparedStatement)
    (pre : List PyParam) (bad : PyParam) (post : List PyParam)
    (resp : FunctionCode × List RespPart) (conn : Connection)
    (hconn : c.connection = some conn) (hopen : conn.closed = false)
    (hpre : ∀ r ∈ pre, validRow ps.params_metadata r)
    (hbad : (∃ v, bad = PyParam.scalar v) ∨
            (∃ vals, bad = PyParam.seq vals ∧ vals.length ≠ ps.params_metadata.length)) :
    ∃ m, execute_prepared tc c ps (pre ++ bad :: post) resp
        = (c, [], .error (.programmingError m)) ∧
      (∀ vals, bad = PyParam.seq vals →
        m = "Prepared statement parameters expected " ++
            toString ps.params_metadata.length ++
            " supplied " ++ toString vals.length ++ ".") := by
  obtain ⟨m, hb, hmsg⟩ := bindRow_invalid ps.params_metadata bad hbad
  have hdrain := drainSource_error ps.params_metadata post bad _ hb pre hpre
  refine ⟨m, ?_, hmsg⟩
  have hcc := check_closed_ok c conn hconn hopen
  simp [execute_prepared, hcc, PreparedStatement.prepare_parameters, pullAll, hdrain]

/-- Witness for C5: a two-slot prepared statement fed a one-value row. -/
theorem claim_C5_witness :
    ∃ m, execute_prepared (fun _ => true) (Cursor.new ⟨false⟩)
        { statement_id := 4, params_metadata := [⟨0, 3, 10⟩, ⟨1, 3, 10⟩],
          result_metadata_part := none, pushed_row_params := [],
          multi_row_parameters := [], end_of_data := false }
        [PyParam.seq [PyVal.int 1]] (FunctionCode.ddl, [])
        = (Cursor.new ⟨false⟩, [], .error (.programmingError m)) ∧
      (∀ vals, PyParam.seq [PyVal.int 1] = PyParam.seq vals →
        m = "Prepared statement parameters expected " ++ toString (2 : Nat) ++
            " supplied " ++ toString vals.length ++ ".") := by
  have h := claim_C5_bad_row (fun _ => true) (Cursor.new ⟨false⟩)
    { statement_id := 4, params_metadata := [⟨0, 3, 10⟩, ⟨1, 3, 10⟩],
      result_metadata_part := none, pushed_row_params := [],
      multi_row_parameters := [], end_of_data := false }
    [] (PyParam.seq [PyVal.int 1]) [] (FunctionCode.ddl, []) ⟨false⟩ rfl rfl
    (by simp)
    (Or.inr ⟨[PyVal.int 1], rfl, by simp⟩)
  simpa using h

/-! ## C1: executemany percent-sign fallback -/

/-- The operation text produced by a successful printf-style substitution
(used to phrase the request log of the fallback path). -/
def fmtOk (pyFormat : String → PyParam → Except String String)
    (escape : PyParam → PyParam) (stmt : String) (r : PyParam) : String :=
  match format_operation pyFormat escape stmt (some r) with
  | .ok op => op
  | .error _ => ""

theorem executemanyFallback_spec (tc : Int → Bool)
    (pf : String → PyParam → Except String String) (ev : PyParam → PyParam)
    (stmt : String) (dr : String → FunctionCode × List RespPart) :
    ∀ (params : List PyParam) (c : CursorState),
      (∀ r ∈ params, ∃ op, format_operation pf ev stmt (some r) = .ok op) →
      (∀ r ∈ params, ∀ cc : CursorState, ∃ cc',
          handle_direct_response tc cc (dr (fmtOk pf ev stmt r)).1
            (dr (fmtOk pf ev stmt r)).2 = .ok cc') →
      (executemanyFallback tc pf ev stmt dr c params).2.2 = .ok () ∧
      (executemanyFallback tc pf ev stmt dr c params).2.1
        = params.map (fun r => Request.executeDirect (fmtOk pf ev stmt r)) := by
  intro params
  induction params with
  | nil =>
      intro c _ _
      exact ⟨rfl, rfl⟩
  | cons r rest ih =>
      intro c hfmt hresp
      obtain ⟨op, hop⟩ := hfmt r (List.mem_cons_self _ _)
      have hfm : fmtOk pf ev stmt r = op := by simp [fmtOk, hop]
      obtain ⟨cc', hcc'⟩ := hresp r (List.mem_cons_self _ _) c
      rw [hfm] at hcc'
      have hstep : execute_direct tc c op (dr op)
          = (cc', [Request.executeDirect op], .ok ()) := by
        simp [execute_direct, hcc']
      have ihr := ih cc' (fun q hq => hfmt q (List.mem_cons_of_mem _ hq))
        (fun q hq => hresp q (List.mem_cons_of_mem _ hq))
      have hunf : executemanyFallback tc pf ev stmt dr c (r :: rest)
          = ((executemanyFallback tc pf ev stmt dr cc' rest).1,
             Request.executeDirect op :: (executemanyFallback tc pf ev stmt dr cc' rest).2.1,
             (executemanyFallback tc pf ev stmt dr cc' rest).2.2) := by
        simp [executemanyFallback, hop, hstep]
      rw [hunf]
      exact ⟨ihr.1, by simp [ihr.2, hfm]⟩

/-- C1: on an open cursor, when preparation raises a DatabaseError whose
message carries the percent-sign signature, `executemany` substitutes each
row's values into the statement and issues exactly one direct-execute
request per row (after the failed prepare request), succeeding overall;
when the message lacks the signature, the DatabaseError propagates
unchanged and no direct-execute request is issued.  The substitution
successes and well-formed per-row responses are assumed, matching the
external collaborators. -/
theorem claim_C1_executemany_fallback (tc : Int → Bool)
    (pf : String → PyParam → Except String String) (ev : PyParam → PyParam)
    (c : CursorState) (stmt msg : String) (params : List PyParam)
    (dr : String → FunctionCode × List RespPart) (per : FunctionCode × List RespPart)
    (conn : Connection) (hconn : c.connection = some conn) (hopen : conn.closed = false)
    (hfmt : ∀ r ∈ params, ∃ op, format_operation pf ev stmt (some r) = .ok op)
    (hresp : ∀ r ∈ params, ∀ cc : CursorState, ∃ cc',
        handle_direct_response tc cc (dr (fmtOk pf ev stmt r)).1
          (dr (fmtOk pf ev stmt r)).2 = .ok cc') :
    (strContains msg percentSignature = true →
      (executemany tc pf ev c stmt params (.error msg) dr per).2.2 = .ok () ∧
      (executemany tc pf ev c stmt params (.error msg) dr per).2.1
        = Request.prepare stmt ::
            params.map (fun r => Request.executeDirect (fmtOk pf ev stmt r))) ∧
    (strContains msg percentSignature = false →
      executemany tc pf ev c stmt params (.error msg) dr per
        = (c, [Request.prepare stmt], .error (.databaseError msg))) := by
  have hcc := check_closed_ok c conn hconn hopen
  have hprep : prepare c stmt (.error msg)
      = (c, [Request.prepare stmt], .error (.databaseError msg)) := by
    simp [prepare, hcc]
  constructor
  · intro hsig
    have hfb := executemanyFallback_spec tc pf ev stmt dr params c hfmt hresp
    constructor
    · simp [executemany, hprep, hsig, hfb.1]
    · simp [executemany, hprep, hsig, hfb.2]
  · intro hsig
    simp [executemany, hprep, hsig]

/-- Witness for C1 at a concrete statement, batch and signature-carrying
preparation error. -/
theorem claim_C1_witness :
    (executemany (fun _ => true) (fun op _ => Except.ok op) id (Cursor.new ⟨false⟩)
        "INSERT INTO T VALUES (%s)" [PyParam.seq [PyVal.int 1], PyParam.seq [PyVal.int 2]]
        (.error "sql syntax error: incorrect syntax near \"%\"")
        (fun _ => (FunctionCode.ddl, [])) (FunctionCode.ddl, [])).2.1
      = [Request.prepare "INSERT INTO T VALUES (%s)",
         Request.executeDirect "INSERT INTO T VALUES (%s)",
         Request.executeDirect "INSERT INTO T VALUES (%s)"] := by
  have h := claim_C1_executemany_fallback (fun _ => true) (fun op _ => Except.ok op) id
    (Cursor.new ⟨false⟩) "INSERT INTO T VALUES (%s)"
    "sql syntax error: incorrect syntax near \"%\""
    [PyParam.seq [PyVal.int 1], PyParam.seq [PyVal.int 2]]
    (fun _ => (FunctionCode.ddl, [])) (FunctionCode.ddl, []) ⟨false⟩ rfl rfl
    (fun r _ => ⟨"INSERT INTO T VALUES (%s)", rfl⟩)
    (fun r _ cc => ⟨cc, rfl⟩)
  have h2 := (h.1 (by decide)).2
  simpa [fmtOk, format_operation] using h2

end PyHDB

namespace PyHDB

/-! ## Buffer-drain lemmas -/

theorem popFromBuffer_append (l : List Row) : ∀ m : Int,
    (popFromBuffer l m).1 ++ (popFromBuffer l m).2.1 = l := by
  induction l with
  | nil => intro m; simp [popFromBuffer]
  | cons r rest ih =>
      intro m
      by_cases hm : 0 < m
      · simp [popFromBuffer, hm, ih]
      · simp [popFromBuffer, hm]

theorem popFromBuffer_missing_nonneg (l : List Row) : ∀ m : Int, 0 ≤ m →
    0 ≤ (popFromBuffer l m).2.2 := by
  induction l with
  | nil => intro m h; simpa [popFromBuffer] using h
  | cons r rest ih =>
      intro m h
      by_cases hm : 0 < m
      · simpa [popFromBuffer, hm] using ih (m - 1) (by omega)
      · simpa [popFromBuffer, hm] using h

theorem popFromBuffer_length (l : List Row) : ∀ m : Int, 0 ≤ m →
    ((popFromBuffer l m).1.length : Int) = m - (popFromBuffer l m).2.2 := by
  induction l with
  | nil => intro m h; simp [popFromBuffer]
  | cons r rest ih =>
      intro m h
      by_cases hm : 0 < m
      · have := ih (m - 1) (by omega)
        simp only [popFromBuffer, hm, if_true, List.length_cons]
        push_cast
        omega
      · simp [popFromBuffer, hm]

theorem popFromBuffer_missing_le (l : List Row) : ∀ m : Int,
    (popFromBuffer l m).2.2 ≤ m := by
  induction l with
  | nil => intro m; simp [popFromBuffer]
  | cons r rest ih =>
      intro m
      by_cases hm : 0 < m
      · have := ih (m - 1)
        simp only [popFromBuffer, hm, if_true]
        omega
      · simp [popFromBuffer, hm]

theorem popFromBuffer_pos_empty (l : List Row) : ∀ m : Int,
    0 < (popFromBuffer l m).2.2 → (popFromBuffer l m).2.1 = [] := by
  induction l with
  | nil => intro m _; simp [popFromBuffer]
  | cons r rest ih =>
      intro m h
      by_cases hm : 0 < m
      · simp only [popFromBuffer, hm, if_true] at h ⊢
        exact ih _ h
      · simp only [popFromBuffer, hm, if_false] at h

/-! ## C3: fetchmany bounds -/

/-- C3: a single `fetchmany(n)` call with a non-negative requested size
issues at most one FETCHNEXT continuation request, and whenever it returns
a row list that list holds at most `n` rows. -/
theorem claim_C3_fetchmany_bounds (cap : Nat) (c : CursorState) (srv : List Row)
    (n : Int) (hn : 0 ≤ n) :
    (fetchmany cap c srv (some n)).requests.length ≤ 1 ∧
    (∀ rows, (fetchmany cap c srv (some n)).result = .ok rows →
      (rows.length : Int) ≤ n) := by
  cases hcc : check_closed c with
  | error e =>
      constructor
      · simp [fetchmany, hcc]
      · intro rows h
        simp [fetchmany, hcc] at h
  | ok u =>
      by_cases hex : c.executed = false
      · constructor
        · simp [fetchmany, hcc, hex]
        · intro rows h
          simp [fetchmany, hcc, hex] at h
      · have hex' : c.executed = true := by
          revert hex; cases c.executed <;> simp
        have hnn := popFromBuffer_missing_nonneg c.buffer n hn
        have hlen := popFromBuffer_length c.buffer n hn
        by_cases hend : (popFromBuffer c.buffer n).2.2 = 0 ∨
            c.received_last_resultset_part = true
        · constructor
          · simp [fetchmany, hcc, hex', hend]
          · intro rows h
            simp [fetchmany, hcc, hex', hend] at h
            subst h
            omega
        · cases hrid : c.resultset_id with
          | none =>
              constructor
              · simp [fetchmany, hcc, hex', hend, hrid]
              · intro rows h
                simp [fetchmany, hcc, hex', hend, hrid] at h
          | some rid =>
              constructor
              · simp [fetchmany, hcc, hex', hend, hrid]
              · intro rows h
                simp [fetchmany, hcc, hex', hend, hrid] at h
                subst h
                have hmpos : 0 < (popFromBuffer c.buffer n).2.2 := by
                  rcases lt_or_eq_of_le hnn with h1 | h1
                  · exact h1
                  · exact absurd h1.symm (by tauto)
                have htake : ((srv.take (min (popFromBuffer c.buffer n).2.2.toNat cap)).length : Int)
                    ≤ (popFromBuffer c.buffer n).2.2 := by
                  have h1 : (srv.take (min (popFromBuffer c.buffer n).2.2.toNat cap)).length
                      ≤ min (popFromBuffer c.buffer n).2.2.toNat cap := by
                    simp
                  have h2 : min (popFromBuffer c.buffer n).2.2.toNat cap
                      ≤ (popFromBuffer c.buffer n).2.2.toNat := Nat.min_le_left _ _
                  have h3 : ((popFromBuffer c.buffer n).2.2.toNat : Int)
                      = (popFromBuffer c.buffer n).2.2 := Int.toNat_of_nonneg hnn
                  omega
                simp only [List.length_append]
                push_cast
                omega

/-- Cursor used by the C3 witness: executed, one buffered row, an active
result-set handle. -/
def c3wCursor : CursorState :=
  { Cursor.new ⟨false⟩ with
      executed := true
      buffer := [[PyVal.int 1]]
      resultset_id := some 5 }

/-- Witness for C3 at a concrete cursor needing a continuation. -/
theorem claim_C3_witness :
    (fetchmany 1 c3wCursor [[PyVal.int 2], [PyVal.int 3]] (some 2)).requests.length ≤ 1 ∧
    (∀ rows,
      (fetchmany 1 c3wCursor [[PyVal.int 2], [PyVal.int 3]] (some 2)).result = .ok rows →
      (rows.length : Int) ≤ 2) :=
  claim_C3_fetchmany_bounds 1 c3wCursor [[PyVal.int 2], [PyVal.int 3]] 2 (by omega)

end PyHDB

namespace PyHDB

/-! ## C4: fetchall partition invariance -/

/-- Termination measure of the fetch loop: buffered rows plus rows still
server-side plus one while the final chunk is outstanding. -/
def fetchMeasure (c : CursorState) (srv : List Row) : Nat :=
  c.buffer.length + srv.length + (if c.received_last_resultset_part then 0 else 1)

theorem fetchmany_eq_early (cap : Nat) (c : CursorState) (srv : List Row) (size : Option Int)
    (hcc : check_closed c = .ok ()) (hexec : c.executed = true)
    (hend : (popFromBuffer c.buffer (size.getD c.arraysize)).2.2 = 0 ∨
            c.received_last_resultset_part = true) :
    fetchmany cap c srv size =
      ⟨{ c with buffer := (popFromBuffer c.buffer (size.getD c.arraysize)).2.1 }, srv, [],
       .ok (popFromBuffer c.buffer (size.getD c.arraysize)).1⟩ := by
  simp [fetchmany, hcc, hexec, hend]

theorem fetchmany_eq_fetch (cap : Nat) (c : CursorState) (srv : List Row) (size : Option Int)
    (rid : Nat) (hcc : check_closed c = .ok ()) (hexec : c.executed = true)
    (hend : ¬((popFromBuffer c.buffer (size.getD c.arraysize)).2.2 = 0 ∨
              c.received_last_resultset_part = true))
    (hrid : c.resultset_id = some rid) :
    fetchmany cap c srv size =
      ⟨{ c with
           buffer := (popFromBuffer c.buffer (size.getD c.arraysize)).2.1
           received_last_resultset_part := c.received_last_resultset_part ||
             (srv.drop (min (popFromBuffer c.buffer (size.getD c.arraysize)).2.2.toNat cap)).isEmpty },
       srv.drop (min (popFromBuffer c.buffer (size.getD c.arraysize)).2.2.toNat cap),
       [Request.fetchNext rid (popFromBuffer c.buffer (size.getD c.arraysize)).2.2],
       .ok ((popFromBuffer c.buffer (size.getD c.arraysize)).1 ++
            srv.take (min (popFromBuffer c.buffer (size.getD c.arraysize)).2.2.toNat cap))⟩ := by
  simp [fetchmany, hcc, hexec, hend, hrid]

/-- One `fetchmany` call on an open, executed cursor with an active result
set: it succeeds, the returned rows followed by what remains buffered and
server-side are exactly the rows that were there before (no skip, no
duplicate), the identity fields are untouched, the last-part/server
invariant is maintained, and the fetch measure never grows — strictly
shrinking whenever the fetchall loop would run another iteration. -/
theorem fetchmany_step (cap : Nat) (c : CursorState) (srv : List Row) (size : Option Int)
    (conn : Connection) (rid : Nat)
    (hconn : c.connection = some conn) (hopen : conn.closed = false)
    (hexec : c.executed = true) (hrid : c.resultset_id = some rid)
    (hsz : 1 ≤ size.getD c.arraysize) (hcap : 1 ≤ cap)
    (hinv : c.received_last_resultset_part = true → srv = []) :
    ∃ rows, (fetchmany cap c srv size).result = .ok rows ∧
      rows ++ (fetchmany cap c srv size).cursor.buffer ++ (fetchmany cap c srv size).server
        = c.buffer ++ srv ∧
      (fetchmany cap c srv size).cursor.connection = c.connection ∧
      (fetchmany cap c srv size).cursor.executed = c.executed ∧
      (fetchmany cap c srv size).cursor.resultset_id = c.resultset_id ∧
      (fetchmany cap c srv size).cursor.arraysize = c.arraysize ∧
      ((fetchmany cap c srv size).cursor.received_last_resultset_part = true →
        (fetchmany cap c srv size).server = []) ∧
      fetchMeasure (fetchmany cap c srv size).cursor (fetchmany cap c srv size).server
        ≤ fetchMeasure c srv ∧
      ((c.buffer ≠ [] ∨ c.received_last_resultset_part = false) →
        fetchMeasure (fetchmany cap c srv size).cursor (fetchmany cap c srv size).server
          < fetchMeasure c srv) := by
  have hcc := check_closed_ok c conn hconn hopen
  have h0 : (0 : Int) ≤ size.getD c.arraysize := by omega
  have happ := popFromBuffer_append c.buffer (size.getD c.arraysize)
  have hnn := popFromBuffer_missing_nonneg c.buffer (size.getD c.arraysize) h0
  have hlen := popFromBuffer_length c.buffer (size.getD c.arraysize) h0
  have hlenapp : (popFromBuffer c.buffer (size.getD c.arraysize)).1.length +
      (popFromBuffer c.buffer (size.getD c.arraysize)).2.1.length = c.buffer.length := by
    rw [← List.length_append, happ]
  by_cases hend : (popFromBuffer c.buffer (size.getD c.arraysize)).2.2 = 0 ∨
      c.received_last_resultset_part = true
  · rw [fetchmany_eq_early cap c srv size hcc hexec hend]
    refine ⟨(popFromBuffer c.buffer (size.getD c.arraysize)).1, rfl, ?_, rfl, rfl, rfl, rfl,
      ?_, ?_, ?_⟩
    · show (popFromBuffer c.buffer (size.getD c.arraysize)).1 ++
          (popFromBuffer c.buffer (size.getD c.arraysize)).2.1 ++ srv = c.buffer ++ srv
      rw [happ]
    · exact hinv
    · simp [fetchMeasure]
      omega
    · intro hcond
      have hp1 : 1 ≤ (popFromBuffer c.buffer (size.getD c.arraysize)).1.length := by
        rcases hend with h1 | h1
        · rw [h1] at hlen
          omega
        · rcases hcond with h2 | h2
          · by_cases h3 : (popFromBuffer c.buffer (size.getD c.arraysize)).2.2 = 0
            · rw [h3] at hlen
              omega
            · have hpos : 0 < (popFromBuffer c.buffer (size.getD c.arraysize)).2.2 :=
                lt_of_le_of_ne hnn (Ne.symm h3)
              have hempty := popFromBuffer_pos_empty c.buffer _ hpos
              have hb : 0 < c.buffer.length := List.length_pos.mpr h2
              rw [hempty] at hlenapp
              simp at hlenapp
              omega
          · rw [h1] at h2
            simp at h2
      simp [fetchMeasure]
      omega
  · have hlast : c.received_last_resultset_part = false := by
      rcases Bool.eq_false_or_eq_true c.received_last_resultset_part with h | h
      · exact absurd (Or.inr h) hend
      · exact h
    have hne : (popFromBuffer c.buffer (size.getD c.arraysize)).2.2 ≠ 0 :=
      fun h => hend (Or.inl h)
    have hpos : 0 < (popFromBuffer c.buffer (size.getD c.arraysize)).2.2 :=
      lt_of_le_of_ne hnn (Ne.symm hne)
    have hempty := popFromBuffer_pos_empty c.buffer (size.getD c.arraysize) hpos
    have hp1 : (popFromBuffer c.buffer (size.getD c.arraysize)).1 = c.buffer := by
      conv_rhs => rw [← happ]
      rw [hempty, List.append_nil]
    have hk : 1 ≤ min (popFromBuffer c.buffer (size.getD c.arraysize)).2.2.toNat cap := by
      have h1 : 1 ≤ (popFromBuffer c.buffer (size.getD c.arraysize)).2.2.toNat := by omega
      exact le_min h1 hcap
    have hdlen := List.length_drop
      (min (popFromBuffer c.buffer (size.getD c.arraysize)).2.2.toNat cap) srv
    rw [fetchmany_eq_fetch cap c srv size rid hcc hexec hend hrid]
    refine ⟨_, rfl, ?_, rfl, rfl, rfl, rfl, ?_, le_of_lt ?hm, fun _ => ?hm⟩
    · simp [hempty, hp1, List.take_append_drop]
    · intro h
      simp only [hlast, Bool.false_or] at h
      have hdnil : srv.drop
          (min (popFromBuffer c.buffer (size.getD c.arraysize)).2.2.toNat cap) = [] := by
        rcases hdrop : srv.drop
            (min (popFromBuffer c.buffer (size.getD c.arraysize)).2.2.toNat cap) with _ | ⟨s, ss⟩
        · rfl
        · rw [hdrop] at h
          simp at h
      exact hdnil
    case hm =>
      rcases hdrop : srv.drop
          (min (popFromBuffer c.buffer (size.getD c.arraysize)).2.2.toNat cap) with _ | ⟨s, ss⟩
      · simp [fetchMeasure, hempty, hlast, hdrop]
      · rw [hdrop] at hdlen
        simp only [List.length_cons] at hdlen
        simp [fetchMeasure, hempty, hlast]
        omega

end PyHDB

namespace PyHDB

/-- The fetchall accumulation loop collects, in order, everything that is
buffered or still server-side, given enough fuel (the loop measure). -/
theorem fetchallLoop_spec (cap : Nat) (conn : Connection) (rid : Nat) (hcap : 1 ≤ cap) :
    ∀ (fuel : Nat) (c : CursorState) (srv : List Row) (acc : List Row),
      c.connection = some conn → conn.closed = false → c.executed = true →
      c.resultset_id = some rid → 1 ≤ c.arraysize →
      (c.received_last_resultset_part = true → srv = []) →
      fetchMeasure c srv ≤ fuel →
      (fetchallLoop cap fuel c srv acc).result = .ok (acc ++ (c.buffer ++ srv)) := by
  intro fuel
  induction fuel with
  | zero =>
      intro c srv acc hconn hopen hexec hrid hasz hinv hm
      have hlast : c.received_last_resultset_part = true := by
        by_contra h
        have hf : c.received_last_resultset_part = false := by
          revert h
          cases c.received_last_resultset_part <;> simp
        rw [fetchMeasure, hf] at hm
        simp at hm
      have hbuf : c.buffer = [] := by
        rw [fetchMeasure] at hm
        have : c.buffer.length = 0 := by omega
        exact List.length_eq_zero.mp this
      have hsrv := hinv hlast
      simp [fetchallLoop, hbuf, hlast, hsrv]
  | succ fuel ih =>
      intro c srv acc hconn hopen hexec hrid hasz hinv hm
      by_cases hcond : c.buffer ≠ [] ∨ c.received_last_resultset_part = false
      · obtain ⟨rows, hres, hcat, hfc, hfe, hfr, hfa, hfinv, hle, hlt⟩ :=
          fetchmany_step cap c srv none conn rid hconn hopen hexec hrid
            (by simpa using hasz) hcap hinv
        have hmo : fetchMeasure (fetchmany cap c srv none).cursor
            (fetchmany cap c srv none).server ≤ fuel := by
          have := hlt hcond
          omega
        have hih := ih (fetchmany cap c srv none).cursor (fetchmany cap c srv none).server
          (acc ++ rows) (by rw [hfc]; exact hconn) hopen (by rw [hfe]; exact hexec)
          (by rw [hfr]; exact hrid) (by rw [hfa]; exact hasz) hfinv hmo
        simp only [fetchallLoop]
        rw [if_pos hcond]
        simp only [hres]
        simp only [hih]
        rw [← hcat]
        simp [List.append_assoc]
      · have hbuf : c.buffer = [] := by
          by_contra h
          exact hcond (Or.inl h)
        have hlast : c.received_last_resultset_part = true := by
          by_contra h
          have hf : c.received_last_resultset_part = false := by
            revert h
            cases c.received_last_resultset_part <;> simp
          exact hcond (Or.inr hf)
        have hsrv := hinv hlast
        simp [fetchallLoop, hbuf, hlast, hsrv]

/-- C4: on an open, executed cursor with an active result set, a single
`fetchmany` with any positive effective size returns a prefix of the rows
such that returned ++ still-buffered ++ still-server-side is exactly the
original row sequence (no row skipped, none duplicated), and `fetchall`
returns exactly the whole row sequence — an answer independent of
`arraysize` and of the server chunk size, hence identical for arraysize 1,
3 or the total count. -/
theorem claim_C4_fetchall_partition (cap fuel : Nat) (c : CursorState) (srv : List Row)
    (conn : Connection) (rid : Nat)
    (hconn : c.connection = some conn) (hopen : conn.closed = false)
    (hexec : c.executed = true) (hrid : c.resultset_id = some rid)
    (hasz : 1 ≤ c.arraysize) (hcap : 1 ≤ cap)
    (hinv : c.received_last_resultset_part = true → srv = [])
    (hfuel : fetchMeasure c srv ≤ fuel) :
    (fetchall cap fuel c srv).result = .ok (c.buffer ++ srv) ∧
    (∀ size : Option Int, 1 ≤ size.getD c.arraysize →
      ∃ rows, (fetchmany cap c srv size).result = .ok rows ∧
        rows ++ (fetchmany cap c srv size).cursor.buffer ++ (fetchmany cap c srv size).server
          = c.buffer ++ srv) := by
  constructor
  · obtain ⟨rows, hres, hcat, hfc, hfe, hfr, hfa, hfinv, hle, hlt⟩ :=
      fetchmany_step cap c srv none conn rid hconn hopen hexec hrid
        (by simpa using hasz) hcap hinv
    have hloop := fetchallLoop_spec cap conn rid hcap fuel (fetchmany cap c srv none).cursor
      (fetchmany cap c srv none).server rows (by rw [hfc]; exact hconn) hopen
      (by rw [hfe]; exact hexec) (by rw [hfr]; exact hrid) (by rw [hfa]; exact hasz)
      hfinv (le_trans hle hfuel)
    simp only [fetchall]
    simp only [hres]
    simp only [hloop]
    rw [← hcat]
    simp [List.append_assoc]
  · intro size hsz
    obtain ⟨rows, hres, hcat, _⟩ :=
      fetchmany_step cap c srv size conn rid hconn hopen hexec hrid hsz hcap hinv
    exact ⟨rows, hres, hcat⟩

/-- Cursor used by the C4 witness: executed, one buffered row, an active
result-set handle, two rows still server-side. -/
def c4wCursor : CursorState :=
  { Cursor.new ⟨false⟩ with
      executed := true
      buffer := [[PyVal.int 1]]
      resultset_id := some 9 }

/-- Witness for C4: fetchall collects the buffered row and both
server-side rows, in order. -/
theorem claim_C4_witness :
    (fetchall 1 10 c4wCursor [[PyVal.int 2], [PyVal.int 3]]).result
      = .ok [[PyVal.int 1], [PyVal.int 2], [PyVal.int 3]] :=
  (claim_C4_fetchall_partition 1 10 c4wCursor [[PyVal.int 2], [PyVal.int 3]] ⟨false⟩ 9
    rfl rfl rfl rfl (by decide) (by decide) (by decide) (by decide)).1

end PyHDB
